import Mathlib

/-!
Shallow embedding of the AI auto-reply decision pipeline of `src/ai/reply.ts`
(Sfiya.ai). The leaf services `analyzeSentiment`, `generateReply` and
`detectSalesLead` wrap a generative-text backend; each is modelled as a pure
function of the backend call's outcome. The HTTP handler
`generateReplyHandler` is modelled as a pure function of the request body, an
environment describing the outcome of every external call (database reads and
writes, backend calls), and the Comment row's prior state; it returns the
response sent, the final Comment row, the list of AutoReply rows inserted, and
the chronological trace of external calls issued.

Supabase client semantics, as used by the source itself: a query resolves with
a data/error pair and never throws; an update that errors leaves the row
unchanged and the handler only aborts where the source explicitly checks the
returned error (the AutoReply insert).
-/

namespace Sfiya

/-- Outcome of one chat-completions call followed by `JSON.parse`: `failure`
covers a transport error, a timeout, or output that is not valid JSON (all of
which throw and are caught); `success p` is a parsed JSON object `p`. -/
inductive LLMResult (α : Type) where
  | failure : LLMResult α
  | success (parsed : α) : LLMResult α
deriving DecidableEq

/-- The fields `analyzeSentiment` reads off the parsed classifier JSON.
`none` models an absent (or `null`/`undefined`) field. -/
structure ParsedClassification where
  sentiment : Option String
  score : Option ℚ
deriving DecidableEq

/-- `analyzeSentiment` (reply.ts:24): on any thrown error returns the default
`("neutral", 0.5)`; on parsed output applies JavaScript `||` coercion to each
field (`parsed.sentiment || "neutral"`, `parsed.score || 0.5`), where an
absent field or the falsy values `""` and `0` select the default. -/
def analyzeSentiment : LLMResult ParsedClassification → String × ℚ
  | LLMResult.failure => ("neutral", 1/2)
  | LLMResult.success p =>
      (match p.sentiment with
       | some s => if s = "" then "neutral" else s
       | none => "neutral",
       match p.score with
       | some q => if q = 0 then 1/2 else q
       | none => 1/2)

/-- Outcome of the reply-generation chat call in `generateReply`:
`failure` covers transport errors and policy rejections (thrown, caught);
`success c` is a completed call whose message content is `c`
(`none` models `null` content). -/
inductive GenOutcome where
  | failure : GenOutcome
  | success (content : Option String) : GenOutcome
deriving DecidableEq

/-- `generateReply` (reply.ts:73): returns the model content, or
`"Thanks for the comment! 🙌"` when the content is null or empty
(`content || "Thanks for the comment! 🙌"`), or the catch-block fallback
`"Thanks for your comment! 🙌"` when the call throws. The request parameters
(tone, language, brand voice, sentiment) only shape the prompt and do not
enter the return-value logic, so the model elides them. -/
def generateReply : GenOutcome → String
  | GenOutcome.failure => "Thanks for your comment! 🙌"
  | GenOutcome.success c =>
      match c with
      | some s => if s = "" then "Thanks for the comment! 🙌" else s
      | none => "Thanks for the comment! 🙌"

/-- The fields `detectSalesLead` reads off the parsed lead-detector JSON. -/
structure ParsedLead where
  is_lead : Option Bool
  temperature : Option String
deriving DecidableEq

/-- `detectSalesLead` (reply.ts:155): defaults to `(false, "cold")` on any
thrown error, and applies `||` coercion to the parsed fields. -/
def detectSalesLead : LLMResult ParsedLead → Bool × String
  | LLMResult.failure => (false, "cold")
  | LLMResult.success p =>
      (p.is_lead.getD false,
       match p.temperature with
       | some t => if t = "" then "cold" else t
       | none => "cold")

/-- The `auto_reply_settings` columns the handler reads. -/
structure AutoReplySettings where
  ignore_spam : Bool
  ignore_hate_comments : Bool
  auto_like_positive : Bool
  default_tone : Option String
  default_language : Option String
deriving DecidableEq

/-- The mutable columns of one `comments` row. -/
structure CommentState where
  sentiment : Option String
  sentiment_score : Option ℚ
  is_liked : Bool
  auto_reply_status : String
deriving DecidableEq

/-- The invocation payload `req.body`; a `none` field is absent from the
payload (destructured to `undefined` in the source). -/
structure Req where
  comment_id : Option String
  user_id : Option String
  comment_text : Option String
  platform : Option String
deriving DecidableEq

/-- One row inserted into `auto_replies` (reply.ts:277). -/
structure AutoReplyRow where
  id : Nat
  user_id : Option String
  comment_id : Option String
  reply_text : String
  tone_used : Option String
  language_used : Option String
  reply_status : String
  created_by : String
deriving DecidableEq

/-- The `reply` object of a successful `replied` response (reply.ts:311). -/
structure ReplyInfo where
  id : Nat
  text : String
  tone : Option String
  language : Option String
  sentiment : String
  is_sales_lead : Bool
  lead_temperature : String
deriving DecidableEq

/-- The HTTP response: `ok` is `res.json` with status 200 and
`success: true`; `err` is `res.status(n).json` with an error message. -/
inductive Resp where
  | ok (action : String) (reason : Option String) (reply : Option ReplyInfo) : Resp
  | err (status : Nat) (msg : String) : Resp
deriving DecidableEq

/-- One external call issued by the handler, for the chronological trace.
`genCall` stands for the whole of `generateReply` (its brand-voice read,
settings read and chat call). -/
inductive Call where
  | settingsRead : Call
  | classifyLLM : Call
  | updateSentiment : Call
  | updateStatus (s : String) : Call
  | updateLike : Call
  | genCall : Call
  | insertAutoReply : Call
  | leadLLM : Call
  | updateLeadStatus : Call
deriving DecidableEq

/-- Outcome of every external call one invocation can make, fixed up front:
`settings` is the settings lookup result (`none` = error or no row); the
three `...Error` flags say whether the corresponding `comments` update
errors (the source never checks these errors); `insertReplyError` says
whether the `auto_replies` insert errors (the source throws on it). -/
structure Env where
  settings : Option AutoReplySettings
  classify : LLMResult ParsedClassification
  updateSentimentError : Bool
  gateUpdateError : Bool
  likeUpdateError : Bool
  gen : GenOutcome
  insertReplyError : Bool
  insertedId : Nat
  lead : LLMResult ParsedLead
  leadUpdateError : Bool
deriving DecidableEq

/-- Everything observable about one invocation: the response sent, the final
`comments` row, the `auto_replies` rows inserted, and the chronological
trace of external calls. -/
structure Outcome where
  resp : Resp
  comment : CommentState
  inserted : List AutoReplyRow
  calls : List Call
deriving DecidableEq

/-- `generateReplyHandler` (reply.ts:198), as a function of the request body,
the environment and the prior `comments` row. A `comments` update that
errors leaves the row unchanged and is otherwise ignored, matching the
source, which discards those results; the `auto_replies` insert error is
thrown and caught, producing the 500 response. -/
def generateReplyHandler (req : Req) (env : Env) (c0 : CommentState) : Outcome :=
  match env.settings with
  | none =>
      { resp := Resp.err 404 "Settings not found", comment := c0, inserted := [],
        calls := [Call.settingsRead] }
  | some settings =>
      let sr := analyzeSentiment env.classify
      let sentiment := sr.1
      let sentiment_score := sr.2
      let c1 := if env.updateSentimentError then c0 else
        { c0 with sentiment := some sentiment, sentiment_score := some sentiment_score }
      if sentiment = "spam" ∧ settings.ignore_spam then
        let c2 := if env.gateUpdateError then c1 else
          { c1 with auto_reply_status := "ignored" }
        { resp := Resp.ok "ignored" (some "Spam detected") none, comment := c2,
          inserted := [],
          calls := [Call.settingsRead, Call.classifyLLM, Call.updateSentiment,
                    Call.updateStatus "ignored"] }
      else if sentiment = "hate" ∧ settings.ignore_hate_comments then
        let c2 := if env.gateUpdateError then c1 else
          { c1 with auto_reply_status := "escalated" }
        { resp := Resp.ok "escalated" (some "Hate comment - escalated to user") none,
          comment := c2, inserted := [],
          calls := [Call.settingsRead, Call.classifyLLM, Call.updateSentiment,
                    Call.updateStatus "escalated"] }
      else
        let likeFired :=
          sentiment = "positive" ∧ settings.auto_like_positive ∧
            req.platform = some "instagram"
        let c2 := if likeFired then
            (if env.likeUpdateError then c1 else { c1 with is_liked := true })
          else c1
        let likeCalls := if likeFired then [Call.updateLike] else ([] : List Call)
        let reply_text := generateReply env.gen
        if env.insertReplyError then
          { resp := Resp.err 500 "Failed to generate reply", comment := c2,
            inserted := [],
            calls := [Call.settingsRead, Call.classifyLLM, Call.updateSentiment] ++
              likeCalls ++ [Call.genCall, Call.insertAutoReply] }
        else
          let row : AutoReplyRow :=
            { id := env.insertedId, user_id := req.user_id,
              comment_id := req.comment_id, reply_text := reply_text,
              tone_used := settings.default_tone,
              language_used := settings.default_language,
              reply_status := "pending", created_by := "ai" }
          let ld := detectSalesLead env.lead
          let is_lead := ld.1
          let temperature := ld.2
          let c3 := if is_lead then
              (if env.leadUpdateError then c2 else
                { c2 with
                  auto_reply_status := "replied",
                  sentiment := some (sentiment ++ "_lead_" ++ temperature) })
            else c2
          let leadCalls := if is_lead then [Call.updateLeadStatus] else ([] : List Call)
          { resp := Resp.ok "replied" none (some
              { id := env.insertedId, text := reply_text,
                tone := settings.default_tone,
                language := settings.default_language, sentiment := sentiment,
                is_sales_lead := is_lead, lead_temperature := temperature }),
            comment := c3, inserted := [row],
            calls := [Call.settingsRead, Call.classifyLLM, Call.updateSentiment] ++
              likeCalls ++ [Call.genCall, Call.insertAutoReply, Call.leadLLM] ++
              leadCalls }

/-! ### Concrete fixtures used by witnesses and counterexamples -/

/-- Settings with every policy flag on, explicit tone and language. -/
def sAll : AutoReplySettings :=
  { ignore_spam := true, ignore_hate_comments := true, auto_like_positive := true,
    default_tone := some "polite", default_language := some "english" }

/-- A fully populated invocation payload. -/
def reqA : Req :=
  { comment_id := some "c1", user_id := some "u1", comment_text := some "hello",
    platform := some "instagram" }

/-- A payload with every required field missing. -/
def reqEmpty : Req :=
  { comment_id := none, user_id := none, comment_text := none, platform := none }

/-- A comment row still pending, unclassified. -/
def cPending : CommentState :=
  { sentiment := none, sentiment_score := none, is_liked := false,
    auto_reply_status := "pending" }

/-- Environment where every external call succeeds and classification
returns spam with score 1. -/
def envSpam : Env :=
  { settings := some sAll,
    classify := LLMResult.success { sentiment := some "spam", score := some 1 },
    updateSentimentError := false, gateUpdateError := false,
    likeUpdateError := false, gen := GenOutcome.success (some "Nice!"),
    insertReplyError := false, insertedId := 7,
    lead := LLMResult.failure, leadUpdateError := false }

/-- Like `envSpam` with classification returning hate. -/
def envHate : Env :=
  { envSpam with
    classify := LLMResult.success { sentiment := some "hate", score := some 1 } }

/-- Like `envSpam` but the gate status update on `comments` errors. -/
def envGateFail : Env := { envSpam with gateUpdateError := true }

/-- Environment where the settings lookup finds no row. -/
def envNoSettings : Env := { envSpam with settings := none }

/-- Environment on the full replied path: neutral classification, lead
detected hot, every call succeeding. -/
def envLead : Env :=
  { envSpam with
    classify := LLMResult.success { sentiment := some "question", score := some 1 },
    lead := LLMResult.success { is_lead := some true, temperature := some "hot" } }

/-- Like `envLead` but the `auto_replies` insert errors. -/
def envInsertFail : Env := { envLead with insertReplyError := true }

/-! ### Claim theorems -/

/-- C1: whenever classification returns sentiment spam and the user's
settings have `ignore_spam` on, the pipeline returns the success response
with action "ignored" and reason "Spam detected", makes exactly the calls
up to the spam-gate status write (so it terminates there), inserts no
AutoReply record, and — when the status write does not error — leaves the
Comment's `auto_reply_status` persisted as "ignored". -/
theorem C1_spam_gate (req : Req) (env : Env) (c0 : CommentState)
    (s : AutoReplySettings) (hs : env.settings = some s)
    (hsent : (analyzeSentiment env.classify).1 = "spam")
    (hflag : s.ignore_spam = true) :
    (generateReplyHandler req env c0).resp =
      Resp.ok "ignored" (some "Spam detected") none ∧
    (generateReplyHandler req env c0).inserted = [] ∧
    (generateReplyHandler req env c0).calls =
      [Call.settingsRead, Call.classifyLLM, Call.updateSentiment,
       Call.updateStatus "ignored"] ∧
    (env.gateUpdateError = false →
      (generateReplyHandler req env c0).comment.auto_reply_status = "ignored") := by
  unfold generateReplyHandler
  rw [hs]
  simp only [hsent, hflag, and_self, if_true, ite_true, true_and]
  intro h
  rw [h]
  simp

/-- C1 witness: with every call succeeding and the classifier returning
spam under all-on settings, the pipeline responds ignored with reason
"Spam detected", inserts nothing, and the comment row ends ignored. -/
theorem C1_spam_gate_witness :
    (analyzeSentiment envSpam.classify).1 = "spam" ∧
    (generateReplyHandler reqA envSpam cPending).resp =
      Resp.ok "ignored" (some "Spam detected") none ∧
    (generateReplyHandler reqA envSpam cPending).inserted = [] ∧
    (generateReplyHandler reqA envSpam cPending).comment.auto_reply_status =
      "ignored" := by
  have h := C1_spam_gate reqA envSpam cPending sAll (by decide) (by decide) (by decide)
  exact ⟨by decide, h.1, h.2.1, h.2.2.2 (by decide)⟩

/-- A gate status write appears in an invocation's call trace only when the
corresponding gate fired: "ignored" requires a spam classification and
"escalated" a hate classification. -/
lemma updateStatus_mem_cases (r : Req) (e : Env) (c : CommentState) (str : String)
    (h : Call.updateStatus str ∈ (generateReplyHandler r e c).calls) :
    ((analyzeSentiment e.classify).1 = "spam" ∧ str = "ignored") ∨
    ((analyzeSentiment e.classify).1 = "hate" ∧ str = "escalated") := by
  unfold generateReplyHandler at h
  cases hset : e.settings with
  | none => rw [hset] at h; simp at h
  | some s =>
      rw [hset] at h
      simp only [] at h
      by_cases h1 : (analyzeSentiment e.classify).1 = "spam" ∧ s.ignore_spam = true
      · rw [if_pos h1] at h
        exact Or.inl ⟨h1.1, by simpa using h⟩
      · rw [if_neg h1] at h
        by_cases h2 : (analyzeSentiment e.classify).1 = "hate" ∧
            s.ignore_hate_comments = true
        · rw [if_pos h2] at h
          exact Or.inr ⟨h2.1, by simpa using h⟩
        · rw [if_neg h2] at h
          exfalso
          simp only [apply_ite Outcome.calls] at h
          split_ifs at h <;> simp_all

/-- C2: whenever classification returns sentiment hate and the user's
settings have `ignore_hate_comments` on, the pipeline returns the success
response with action "escalated" and reason "Hate comment - escalated to
user", makes exactly the calls up to the hate-gate status write (evaluated
after the spam gate, which cannot fire since the single sentiment value is
"hate", not "spam"), inserts no AutoReply record, and — when the status
write does not error — persists `auto_reply_status` as "escalated";
moreover in any invocation whatsoever at most one of the two gate status
writes appears in the call trace. -/
theorem C2_hate_gate (req : Req) (env : Env) (c0 : CommentState)
    (s : AutoReplySettings) (hs : env.settings = some s)
    (hsent : (analyzeSentiment env.classify).1 = "hate")
    (hflag : s.ignore_hate_comments = true) :
    ((generateReplyHandler req env c0).resp =
      Resp.ok "escalated" (some "Hate comment - escalated to user") none ∧
     (generateReplyHandler req env c0).inserted = [] ∧
     (generateReplyHandler req env c0).calls =
      [Call.settingsRead, Call.classifyLLM, Call.updateSentiment,
       Call.updateStatus "escalated"] ∧
     (env.gateUpdateError = false →
       (generateReplyHandler req env c0).comment.auto_reply_status = "escalated")) ∧
    ∀ (r2 : Req) (e2 : Env) (c2 : CommentState),
      ¬(Call.updateStatus "ignored" ∈ (generateReplyHandler r2 e2 c2).calls ∧
        Call.updateStatus "escalated" ∈ (generateReplyHandler r2 e2 c2).calls) := by
  constructor
  · unfold generateReplyHandler
    rw [hs]
    simp only [hsent, hflag, and_self, if_true, ite_true, true_and, and_true]
    have hnotspam : ¬(("hate" : String) = "spam" ∧ s.ignore_spam = true) := by
      intro hc
      exact absurd hc.1 (by decide)
    rw [if_neg hnotspam]
    simp only [and_self, if_true, ite_true, true_and]
    intro h
    rw [h]
    simp
  · intro r2 e2 c2 hc
    obtain ⟨hi, he⟩ := hc
    have h1 := updateStatus_mem_cases r2 e2 c2 "ignored" hi
    have h2 := updateStatus_mem_cases r2 e2 c2 "escalated" he
    rcases h1 with ⟨hsp, _⟩ | ⟨_, hbad⟩
    · rcases h2 with ⟨_, hbad2⟩ | ⟨hht, _⟩
      · exact absurd hbad2 (by decide)
      · exact absurd (hsp.symm.trans hht) (by decide)
    · exact absurd hbad (by decide)

/-- C2 witness: with every call succeeding and the classifier returning
hate under all-on settings, the pipeline responds escalated, inserts
nothing, and the comment row ends escalated. -/
theorem C2_hate_gate_witness :
    (analyzeSentiment envHate.classify).1 = "hate" ∧
    (generateReplyHandler reqA envHate cPending).resp =
      Resp.ok "escalated" (some "Hate comment - escalated to user") none ∧
    (generateReplyHandler reqA envHate cPending).inserted = [] ∧
    (generateReplyHandler reqA envHate cPending).comment.auto_reply_status =
      "escalated" := by
  have h := C2_hate_gate reqA envHate cPending sAll (by decide) (by decide) (by decide)
  exact ⟨by decide, h.1.1, h.1.2.1, h.1.2.2.2 (by decide)⟩

/-- C3: when the settings lookup returns an error or no row, the handler
responds 404 "Settings not found", leaves the Comment row untouched,
inserts nothing, and the settings read is the only external call made. -/
theorem C3_missing_settings (req : Req) (env : Env) (c0 : CommentState)
    (hs : env.settings = none) :
    generateReplyHandler req env c0 =
      { resp := Resp.err 404 "Settings not found", comment := c0, inserted := [],
        calls := [Call.settingsRead] } := by
  unfold generateReplyHandler
  rw [hs]

/-- C3 witness: a concrete invocation whose settings lookup finds no row
gets the 404 response, an untouched comment row, no insert, and a
one-element call trace. -/
theorem C3_missing_settings_witness :
    envNoSettings.settings = none ∧
    generateReplyHandler reqA envNoSettings cPending =
      { resp := Resp.err 404 "Settings not found", comment := cPending,
        inserted := [], calls := [Call.settingsRead] } :=
  ⟨rfl, C3_missing_settings reqA envNoSettings cPending rfl⟩

/-- C4: when the classification call fails in any way (transport error,
timeout, or malformed output — all thrown and caught), `analyzeSentiment`
returns exactly the default ("neutral", 0.5); being a total function, it
propagates no error to its caller. -/
theorem C4_classify_failure_default :
    analyzeSentiment (LLMResult.failure : LLMResult ParsedClassification) =
      ("neutral", (1 : ℚ)/2) := rfl

/-- C5: in every invocation that passes the settings check, the sentiment
persist call is issued right after classification and before any gate
status write (it is the third call of the trace), and — when that write
does not error — an invocation terminated by the spam or hate gate still
carries the classified sentiment and score on the Comment row. -/
theorem C5_classification_persisted (req : Req) (env : Env) (c0 : CommentState)
    (s : AutoReplySettings) (hs : env.settings = some s) :
    (generateReplyHandler req env c0).calls.take 3 =
      [Call.settingsRead, Call.classifyLLM, Call.updateSentiment] ∧
    (env.updateSentimentError = false →
      (((analyzeSentiment env.classify).1 = "spam" ∧ s.ignore_spam = true) ∨
       ((analyzeSentiment env.classify).1 = "hate" ∧
         s.ignore_hate_comments = true)) →
      (generateReplyHandler req env c0).comment.sentiment =
        some (analyzeSentiment env.classify).1 ∧
      (generateReplyHandler req env c0).comment.sentiment_score =
        some (analyzeSentiment env.classify).2) := by
  unfold generateReplyHandler
  rw [hs]
  simp only [apply_ite Outcome.calls, apply_ite Outcome.comment]
  constructor
  · split_ifs <;> simp
  · intro hup hgate
    rcases hgate with h1 | h2
    · rw [if_pos h1]
      simp [hup, apply_ite CommentState.sentiment,
        apply_ite CommentState.sentiment_score]
    · have hnotspam : ¬((analyzeSentiment env.classify).1 = "spam" ∧
          s.ignore_spam = true) := by
        intro hc
        exact absurd (hc.1.symm.trans h2.1) (by decide)
      rw [if_neg hnotspam, if_pos h2]
      simp [hup, apply_ite CommentState.sentiment,
        apply_ite CommentState.sentiment_score]

/-- C5 witness: in the concrete spam-gated invocation the trace starts
with the settings read, the classification call and the sentiment persist,
and the ignored comment still carries sentiment "spam" with score 1. -/
theorem C5_classification_persisted_witness :
    (generateReplyHandler reqA envSpam cPending).calls.take 3 =
      [Call.settingsRead, Call.classifyLLM, Call.updateSentiment] ∧
    (generateReplyHandler reqA envSpam cPending).comment.sentiment = some "spam" ∧
    (generateReplyHandler reqA envSpam cPending).comment.sentiment_score = some 1 := by
  have h := C5_classification_persisted reqA envSpam cPending sAll rfl
  have h2 := h.2 (by decide) (Or.inl ⟨by decide, by decide⟩)
  exact ⟨h.1, by rw [h2.1]; decide, by rw [h2.2]; decide⟩

/-- Like `envLead` but the lead detector call fails, so no lead is
detected. -/
def envNoLead : Env := { envLead with lead := LLMResult.failure }

/-- C6 counterexample: in a concrete invocation whose spam-gate status
write on `comments` errors, the handler still returns the success
response — it does not abort with an error response as the claim says —
and the failed write leaves the row's status at "pending". -/
theorem C6_counterexample :
    envGateFail.gateUpdateError = true ∧
    (generateReplyHandler reqA envGateFail cPending).comment.auto_reply_status =
      "pending" ∧
    (generateReplyHandler reqA envGateFail cPending).resp =
      Resp.ok "ignored" (some "Spam detected") none :=
  ⟨rfl, by decide, by decide⟩

/-- C6 amended: only a failure of the AutoReply insert of step 7 aborts the
invocation with the 500 error response (and nothing inserted); failures of
the Comment-update writes of steps 2/3/4 are ignored — the source never
checks their returned errors — so whenever the settings are present and
the insert does not fail, the response is a success response regardless of
any Comment-update failure. -/
theorem C6_amended_abort_policy (req : Req) (env : Env) (c0 : CommentState)
    (s : AutoReplySettings) (hs : env.settings = some s) :
    ((¬((analyzeSentiment env.classify).1 = "spam" ∧ s.ignore_spam = true)) →
     (¬((analyzeSentiment env.classify).1 = "hate" ∧
         s.ignore_hate_comments = true)) →
     env.insertReplyError = true →
     (generateReplyHandler req env c0).resp =
       Resp.err 500 "Failed to generate reply" ∧
     (generateReplyHandler req env c0).inserted = []) ∧
    (env.insertReplyError = false →
     ∃ a r i, (generateReplyHandler req env c0).resp = Resp.ok a r i) := by
  unfold generateReplyHandler
  rw [hs]
  simp only [apply_ite Outcome.resp, apply_ite Outcome.inserted]
  constructor
  · intro hn1 hn2 hins
    rw [if_neg hn1, if_neg hn2]
    simp [hins]
  · intro hins
    split_ifs with hA hB hC
    · exact ⟨_, _, _, rfl⟩
    · exact ⟨_, _, _, rfl⟩
    · exact absurd hC (by simp [hins])
    · exact ⟨_, _, _, rfl⟩

/-- C6 amended witness: a concrete invocation whose AutoReply insert
errors gets the 500 response and no inserted row. -/
theorem C6_amended_abort_policy_witness :
    envInsertFail.insertReplyError = true ∧
    (generateReplyHandler reqA envInsertFail cPending).resp =
      Resp.err 500 "Failed to generate reply" ∧
    (generateReplyHandler reqA envInsertFail cPending).inserted = [] := by
  have h := (C6_amended_abort_policy reqA envInsertFail cPending sAll rfl).1
    (by decide) (by decide) rfl
  exact ⟨rfl, h.1, h.2⟩

/-- C7: in every invocation reaching lead detection with the relevant
writes succeeding, a detected lead updates the Comment row to carry the
composite sentiment string original-sentiment ++ "_lead_" ++ temperature
and status "replied", while a non-lead leaves the persisted sentiment
string as the classification written in step 2. -/
theorem C7_lead_detection (req : Req) (env : Env) (c0 : CommentState)
    (s : AutoReplySettings) (hs : env.settings = some s)
    (hn1 : ¬((analyzeSentiment env.classify).1 = "spam" ∧ s.ignore_spam = true))
    (hn2 : ¬((analyzeSentiment env.classify).1 = "hate" ∧
        s.ignore_hate_comments = true))
    (hins : env.insertReplyError = false)
    (hup : env.updateSentimentError = false)
    (hlead : env.leadUpdateError = false) :
    ((detectSalesLead env.lead).1 = true →
      (generateReplyHandler req env c0).comment.sentiment =
        some ((analyzeSentiment env.classify).1 ++ "_lead_" ++
          (detectSalesLead env.lead).2) ∧
      (generateReplyHandler req env c0).comment.auto_reply_status = "replied") ∧
    ((detectSalesLead env.lead).1 = false →
      (generateReplyHandler req env c0).comment.sentiment =
        some (analyzeSentiment env.classify).1) := by
  unfold generateReplyHandler
  rw [hs]
  simp only []
  rw [if_neg hn1, if_neg hn2]
  constructor
  · intro hl
    simp [hl, hlead, hins, hup, apply_ite CommentState.sentiment,
      apply_ite CommentState.auto_reply_status]
  · intro hl
    simp [hl, hins, hup, apply_ite CommentState.sentiment]

/-- C7 witness: with a hot lead detected on a question comment the row
carries "question_lead_hot" and status "replied"; with the lead call
failing (no lead) the row keeps sentiment "question". -/
theorem C7_lead_detection_witness :
    (detectSalesLead envLead.lead).1 = true ∧
    (generateReplyHandler reqA envLead cPending).comment.sentiment =
      some "question_lead_hot" ∧
    (generateReplyHandler reqA envLead cPending).comment.auto_reply_status =
      "replied" ∧
    (generateReplyHandler reqA envNoLead cPending).comment.sentiment =
      some "question" := by
  have h := (C7_lead_detection reqA envLead cPending sAll rfl (by decide)
    (by decide) rfl rfl rfl).1 (by decide)
  have h2 := (C7_lead_detection reqA envNoLead cPending sAll rfl (by decide)
    (by decide) rfl rfl rfl).2 (by decide)
  refine ⟨by decide, ?_, h.2, ?_⟩
  · rw [h.1]; decide
  · rw [h2]; decide

/-- C8 counterexample: the fallback for a thrown generation failure and
the fallback for null-or-empty model output are two different strings, so
no single fixed fallback string covers all underlying failures as the
claim states. -/
theorem C8_counterexample :
    generateReply GenOutcome.failure = "Thanks for your comment! 🙌" ∧
    generateReply (GenOutcome.success none) = "Thanks for the comment! 🙌" ∧
    generateReply GenOutcome.failure ≠ generateReply (GenOutcome.success none) :=
  ⟨rfl, rfl, by decide⟩

/-- C8 amended: generateReply always returns non-empty text; a thrown
failure (transport error, policy rejection) yields the fixed catch
fallback "Thanks for your comment! 🙌", while null or empty model output
yields the distinct fixed fallback "Thanks for the comment! 🙌". -/
theorem C8_nonempty_fallbacks :
    (∀ o : GenOutcome, generateReply o ≠ "") ∧
    generateReply GenOutcome.failure = "Thanks for your comment! 🙌" ∧
    (∀ c : Option String, c = none ∨ c = some "" →
      generateReply (GenOutcome.success c) = "Thanks for the comment! 🙌") := by
  refine ⟨?_, rfl, ?_⟩
  · intro o
    cases o with
    | failure => decide
    | success c =>
        cases c with
        | none => decide
        | some str =>
            by_cases hsz : str = ""
            · subst hsz; decide
            · simp [generateReply, hsz]
  · intro c hc
    rcases hc with rfl | rfl
    · decide
    · decide

/-- C8 amended witness: empty model output produces the non-empty comment
fallback, and ordinary non-empty output stays non-empty. -/
theorem C8_nonempty_fallbacks_witness :
    generateReply (GenOutcome.success (some "")) = "Thanks for the comment! 🙌" ∧
    generateReply (GenOutcome.success (some "Great post!")) ≠ "" :=
  ⟨C8_nonempty_fallbacks.2.2 (some "") (Or.inr rfl),
   C8_nonempty_fallbacks.1 (GenOutcome.success (some "Great post!"))⟩

/-- C9 counterexample: with every required field missing from the payload
the handler still issues the settings read — an external call — and the
rejection it produces is the post-lookup 404 "Settings not found", not a
pre-call validation error, refuting the claimed immediate client-error
rejection before any external call. -/
theorem C9_counterexample :
    reqEmpty.comment_id = none ∧ reqEmpty.user_id = none ∧
    reqEmpty.comment_text = none ∧ reqEmpty.platform = none ∧
    Call.settingsRead ∈
      (generateReplyHandler reqEmpty envNoSettings cPending).calls ∧
    (generateReplyHandler reqEmpty envNoSettings cPending).resp =
      Resp.err 404 "Settings not found" :=
  ⟨rfl, rfl, rfl, rfl, by decide, by decide⟩

/-- C9 amended: the handler performs no payload validation at all — every
invocation, whatever fields are missing, begins with the settings read;
when that lookup finds no row (as with an absent user_id) the invocation
is rejected only then, with the 404 "Settings not found" response. -/
theorem C9_no_validation (req : Req) (env : Env) (c0 : CommentState) :
    (generateReplyHandler req env c0).calls.head? = some Call.settingsRead ∧
    (env.settings = none →
      (generateReplyHandler req env c0).resp =
        Resp.err 404 "Settings not found") := by
  constructor
  · unfold generateReplyHandler
    cases hset : env.settings with
    | none => rfl
    | some s =>
        simp only [apply_ite Outcome.calls]
        split_ifs <;> rfl
  · intro hs
    unfold generateReplyHandler
    rw [hs]

/-- C9 amended witness: the all-fields-missing payload with no settings
row produces the settings read as first call and the 404 response. -/
theorem C9_no_validation_witness :
    (generateReplyHandler reqEmpty envNoSettings cPending).calls.head? =
      some Call.settingsRead ∧
    (generateReplyHandler reqEmpty envNoSettings cPending).resp =
      Resp.err 404 "Settings not found" :=
  ⟨(C9_no_validation reqEmpty envNoSettings cPending).1,
   (C9_no_validation reqEmpty envNoSettings cPending).2 rfl⟩

/-- C10: the JavaScript falsy coercion in analyzeSentiment replaces a
parsed score of 0 by the default 0.5 and a parsed empty sentiment string
by "neutral", and consequently no outcome of analyzeSentiment ever carries
a score of exactly 0. -/
theorem C10_falsy_coercion :
    (∀ p : ParsedClassification, p.score = some 0 →
      (analyzeSentiment (LLMResult.success p)).2 = 1/2) ∧
    (∀ p : ParsedClassification, p.sentiment = some "" →
      (analyzeSentiment (LLMResult.success p)).1 = "neutral") ∧
    (∀ x : LLMResult ParsedClassification, (analyzeSentiment x).2 ≠ 0) := by
  refine ⟨?_, ?_, ?_⟩
  · intro p hp
    simp [analyzeSentiment, hp]
  · intro p hp
    simp [analyzeSentiment, hp]
  · intro x
    cases x with
    | failure => norm_num [analyzeSentiment]
    | success p =>
        cases hq : p.score with
        | none => norm_num [analyzeSentiment, hq]
        | some q =>
            by_cases h0 : q = 0
            · norm_num [analyzeSentiment, hq, h0]
            · simp [analyzeSentiment, hq, h0]

/-- C10 witness: the parsed object with empty sentiment and zero score is
coerced to ("neutral", 0.5), and the defaulted score is non-zero. -/
theorem C10_falsy_coercion_witness :
    (analyzeSentiment (LLMResult.success
      { sentiment := some "", score := some 0 })).1 = "neutral" ∧
    (analyzeSentiment (LLMResult.success
      { sentiment := some "", score := some 0 })).2 = 1/2 ∧
    (analyzeSentiment (LLMResult.failure : LLMResult ParsedClassification)).2 ≠ 0 :=
  ⟨C10_falsy_coercion.2.1 { sentiment := some "", score := some 0 } rfl,
   C10_falsy_coercion.1 { sentiment := some "", score := some 0 } rfl,
   C10_falsy_coercion.2.2 LLMResult.failure⟩

end Sfiya
